import Mathlib

/-!
Shallow embedding of the two utilities of this repository:
`src/github-pages-deploy-skill/scripts/create_workflow.py` and
`src/sync_skill.py`.

The file-system state is modelled as an association list from paths
(lists of name components) to entries; the first entry with a given key
is the authoritative one.  Python exceptions injected by the
environment (I/O errors from `shutil` / `tarfile` / `open`) are
modelled by explicit Boolean oracles, and tar archives are modelled by
the `FData.tar` constructor holding the archive's member list (the
source opens the archive with `tarfile.open(path, "w")`, an
uncompressed tar).  Python f-string substitution is modelled by string
concatenation with the same text content.
-/

/-- A file-system path, as its list of name components. -/
abbrev FPath := List String

/-- Contents of a regular file: plain text, or an uncompressed tar
archive holding named members. -/
inductive FData where
  | text : String → FData
  | tar : List (FPath × FData) → FData

/-- A file-system entry: a directory or a regular file with contents. -/
inductive Entry where
  | dir : Entry
  | file : FData → Entry

/-- The file system: an association list from paths to entries. -/
abbrev FS := List (FPath × Entry)

/-- Model of `FPath.exists()`: some entry has this exact path. -/
def fsExists : FS → FPath → Bool
  | [], _ => false
  | (q, _) :: fs, p => q == p || fsExists fs p

/-- Contents of a regular-file entry (`none` for a directory). -/
def entryData : Entry → Option FData
  | Entry.dir => none
  | Entry.file d => some d

/-- Contents of the regular file stored at a path, if any. -/
def fileAt : FS → FPath → Option FData
  | [], _ => none
  | (q, e) :: fs, p => if q == p then entryData e else fileAt fs p

/-- Model of `FPath.parent`: drop the last component. -/
def parent (p : FPath) : FPath := p.dropLast

/-- Model of `FPath.name`: the last component. -/
def lastName (p : FPath) : String := p.getLast?.getD ""

/-- All prefixes of a path, shortest first (used by `mkdir(parents=True)`). -/
def prefixes (p : FPath) : List FPath :=
  (List.range (p.length + 1)).map fun n => p.take n

/-- Model of `p.mkdir(parents=True, exist_ok=True)`: add a directory
entry for every prefix of `p` that does not exist yet. -/
def mkdirParents (fs : FS) (p : FPath) : FS :=
  fs ++ (prefixes p).filterMap fun q =>
    if fsExists fs q then none else some (q, Entry.dir)

/-- Model of `shutil.rmtree(p)`: remove `p` and everything below it. -/
def rmtree (fs : FS) (p : FPath) : FS :=
  fs.filter fun e => !(p.isPrefixOf e.1)

/-- Model of `shutil.copytree(src, dst)`: for every entry below (or at)
`src`, create the same entry below (or at) `dst`. -/
def copytree (fs : FS) (src dst : FPath) : FS :=
  fs ++ fs.filterMap fun e =>
    if src.isPrefixOf e.1 then some (dst ++ e.1.drop src.length, e.2) else none

/-- Model of `FPath.unlink()`: remove the entry at exactly this path. -/
def unlinkFile (fs : FS) (p : FPath) : FS :=
  fs.filter fun e => !(e.1 == p)

/-- Write a regular file at `p`, replacing any previous entry there. -/
def writeFile (fs : FS) (p : FPath) (d : FData) : FS :=
  (fs.filter fun e => !(e.1 == p)) ++ [(p, Entry.file d)]

/-- Model of `dest.rglob("*")` filtered by `is_file()`: the regular
files strictly below `p`, with their contents. -/
def filesUnder (fs : FS) (p : FPath) : List (FPath × FData) :=
  fs.filterMap fun e =>
    if p.isPrefixOf e.1 && !(e.1 == p) then
      (entryData e.2).map fun d => (e.1, d)
    else none

/-!
Embedding of `src/github-pages-deploy-skill/scripts/create_workflow.py`.
-/

/-- Embedding of `get_workflow_template(project_type, repo_name,
build_dir=None)` (lines 12-225).  The five template texts are the
source's template literals; `ValueError` is modelled as `Except.error`.
The f-string substitution `/{repo_name}/` is modelled by the
concatenation `"/" ++ repo_name ++ "/"` with identical text. -/
def get_workflow_template (project_type repo_name : String)
    (build_dir : Option String) : Except String String :=
  if project_type == "vanilla" then
    Except.ok "name: Deploy to GitHub Pages\n\non:\n  push:\n    branches: [ main ]\n\npermissions:\n  contents: write\n  pages: write\n  id-token: write\n\njobs:\n  deploy:\n    runs-on: ubuntu-latest\n    steps:\n      - uses: actions/checkout@v4\n\n      - name: Setup Pages\n        uses: actions/configure-pages@v4\n\n      - name: Upload artifact\n        uses: actions/upload-pages-artifact@v3\n        with:\n          path: \x27.\x27\n\n      - name: Deploy to GitHub Pages\n        id: deployment\n        uses: actions/deploy-pages@v4\n"
  else if project_type == "react-vite" then
    Except.ok ("name: Deploy to GitHub Pages\n\non:\n  push:\n    branches: [ main ]\n\npermissions:\n  contents: write\n  pages: write\n  id-token: write\n\njobs:\n  build-and-deploy:\n    runs-on: ubuntu-latest\n    steps:\n      - uses: actions/checkout@v4\n\n      - name: Setup Node.js\n        uses: actions/setup-node@v4\n        with:\n          node-version: \x2720\x27\n          cache: \x27npm\x27\n\n      - name: Install dependencies\n        run: npm ci\n\n      - name: Build\n        run: npm run build\n        env:\n          VITE_BASE_URL: " ++ ("/" ++ repo_name ++ "/") ++ "\n\n      - name: Setup Pages\n        uses: actions/configure-pages@v4\n\n      - name: Upload artifact\n        uses: actions/upload-pages-artifact@v3\n        with:\n          path: dist\n\n      - name: Deploy to GitHub Pages\n        id: deployment\n        uses: actions/deploy-pages@v4\n")
  else if project_type == "cra" then
    Except.ok ("name: Deploy to GitHub Pages\n\non:\n  push:\n    branches: [ main ]\n\npermissions:\n  contents: write\n  pages: write\n  id-token: write\n\njobs:\n  build-and-deploy:\n    runs-on: ubuntu-latest\n    steps:\n      - uses: actions/checkout@v4\n\n      - name: Setup Node.js\n        uses: actions/setup-node@v4\n        with:\n          node-version: \x2720\x27\n          cache: \x27npm\x27\n\n      - name: Install dependencies\n        run: npm ci\n\n      - name: Build\n        run: npm run build\n        env:\n          PUBLIC_URL: " ++ ("/" ++ repo_name ++ "/") ++ "\n\n      - name: Setup Pages\n        uses: actions/configure-pages@v4\n\n      - name: Upload artifact\n        uses: actions/upload-pages-artifact@v3\n        with:\n          path: build\n\n      - name: Deploy to GitHub Pages\n        id: deployment\n        uses: actions/deploy-pages@v4\n")
  else if project_type == "vue" then
    Except.ok "name: Deploy to GitHub Pages\n\non:\n  push:\n    branches: [ main ]\n\npermissions:\n  contents: write\n  pages: write\n  id-token: write\n\njobs:\n  build-and-deploy:\n    runs-on: ubuntu-latest\n    steps:\n      - uses: actions/checkout@v4\n\n      - name: Setup Node.js\n        uses: actions/setup-node@v4\n        with:\n          node-version: \x2720\x27\n          cache: \x27npm\x27\n\n      - name: Install dependencies\n        run: npm ci\n\n      - name: Build\n        run: npm run build\n\n      - name: Setup Pages\n        uses: actions/configure-pages@v4\n\n      - name: Upload artifact\n        uses: actions/upload-pages-artifact@v3\n        with:\n          path: dist\n\n      - name: Deploy to GitHub Pages\n        id: deployment\n        uses: actions/deploy-pages@v4\n"
  else if project_type == "nextjs" then
    Except.ok "name: Deploy to GitHub Pages\n\non:\n  push:\n    branches: [ main ]\n\npermissions:\n  contents: write\n  pages: write\n  id-token: write\n\njobs:\n  build-and-deploy:\n    runs-on: ubuntu-latest\n    steps:\n      - uses: actions/checkout@v4\n\n      - name: Setup Node.js\n        uses: actions/setup-node@v4\n        with:\n          node-version: \x2720\x27\n          cache: \x27npm\x27\n\n      - name: Install dependencies\n        run: npm ci\n\n      - name: Build\n        run: npm run build\n\n      - name: Setup Pages\n        uses: actions/configure-pages@v4\n\n      - name: Upload artifact\n        uses: actions/upload-pages-artifact@v3\n        with:\n          path: out\n\n      - name: Deploy to GitHub Pages\n        id: deployment\n        uses: actions/deploy-pages@v4\n"
  else
    Except.error ("Unknown project type: " ++ project_type)

/-- The output path `create_workflow` resolves from its optional
argument (lines 231-234): the default is `.github/workflows/deploy.yml`
under the current working directory. -/
def resolvedOut (output_path : Option FPath) (cwd : FPath) : FPath :=
  match output_path with
  | none => cwd ++ [".github", "workflows", "deploy.yml"]
  | some p => p

/-- Embedding of `create_workflow(project_type, repo_name, output_path)`
(lines 228-247): resolve the output path, create its parent directories,
then obtain the template (which may raise) and write it.  The returned
pair carries the `Except` outcome together with the file system after
the call, so that the directory creation performed before a raised
`ValueError` is observable. -/
def create_workflow (project_type repo_name : String)
    (output_path : Option FPath) (cwd : FPath) (fs : FS) :
    Except String FPath × FS :=
  let out := resolvedOut output_path cwd
  let fs1 := mkdirParents fs (parent out)
  match get_workflow_template project_type repo_name none with
  | Except.error e => (Except.error e, fs1)
  | Except.ok workflow => (Except.ok out, writeFile fs1 out (FData.text workflow))

/-!
Embedding of `src/sync_skill.py`.
-/

/-- The source skill path fixed by `get_paths` (line 24):
`project_dir / "github-pages-deploy-skill"`. -/
def sourcePathOf (project_dir : FPath) : FPath :=
  project_dir ++ ["github-pages-deploy-skill"]

/-- The destination skill path fixed by `get_paths` (lines 27-29):
a fixed path below the home directory. -/
def destPathOf (home : FPath) : FPath :=
  home ++ [".claude", "plugins", "cache", "anthropic-agent-skills",
    "example-skills", "a5bcdd7e58cd", "skills", "github-pages-deploy"]

/-- The skills directory fixed by `get_paths` (line 32): the
destination's parent. -/
def skillsDirOf (home : FPath) : FPath := parent (destPathOf home)

/-- Embedding of `get_paths()` (lines 18-34), parametrised by the
project directory and the home directory the source reads from
`__file__` and `Path.home()`. -/
def get_paths (project_dir home : FPath) : FPath × FPath × FPath × FPath :=
  (project_dir, sourcePathOf project_dir, destPathOf home, skillsDirOf home)

/-- Embedding of `backup_skill(dest_skill)` (lines 37-52).  `timestamp`
stands for `datetime.now().strftime("%Y%m%d_%H%M%S")`; `copyOk` is the
oracle for `shutil.copytree` raising.  A raised exception is caught and
turned into the `none` result (lines 50-52). -/
def backup_skill (dest_skill : FPath) (timestamp : String) (fs : FS)
    (copyOk : Bool) : Option FPath × FS :=
  if !(fsExists fs dest_skill) then (none, fs)
  else
    let backup_path := parent dest_skill ++
      [lastName dest_skill ++ "_backup_" ++ timestamp]
    if copyOk then (some backup_path, copytree fs dest_skill backup_path)
    else (none, fs)

/-- Embedding of `sync_skill_files(source_skill, dest_skill)` (lines
55-77): check the source exists, create the destination's parent,
remove an existing destination, then copy.  `copyOk` is the oracle for
`shutil.copytree` raising; the raise is caught and turned into the
`false` result with the destination already removed (lines 75-77). -/
def sync_skill_files (source_skill dest_skill : FPath) (fs : FS)
    (copyOk : Bool) : Bool × FS :=
  if !(fsExists fs source_skill) then (false, fs)
  else
    let fs1 := mkdirParents fs (parent dest_skill)
    let fs2 := if fsExists fs1 dest_skill then rmtree fs1 dest_skill else fs1
    if copyOk then (true, copytree fs2 source_skill dest_skill)
    else (false, fs2)

/-- The archive path used by `package_skill` (lines 84, 90):
`skills_dir / "github-pages-deploy.skill"`. -/
def pkgPathOf (skills_dir : FPath) : FPath :=
  skills_dir ++ ["github-pages-deploy.skill"]

/-- Lines 84-87 of `package_skill`: remove the old package if present. -/
def removeOldPackage (skills_dir : FPath) (fs : FS) : FS :=
  if fsExists fs (pkgPathOf skills_dir) then
    unlinkFile fs (pkgPathOf skills_dir)
  else fs

/-- Embedding of `package_skill(skills_dir, dest_skill)` (lines
80-112).  `ok` is the oracle for I/O errors raised by
`unlink` / `tarfile` / `stat` (e.g. a read-only target), caught at
lines 110-112.  The archive members are the regular files below
`dest_skill`, each named by `item.relative_to(dest_skill.parent /
"github-pages-deploy")` (line 100); if some item were outside that
base, `relative_to` would raise `ValueError`, also caught. -/
def package_skill (skills_dir dest_skill : FPath) (fs : FS) (ok : Bool) :
    Bool × FS :=
  if !ok then (false, fs)
  else
    let fs1 := removeOldPackage skills_dir fs
    let items := filesUnder fs1 dest_skill
    let base := parent dest_skill ++ ["github-pages-deploy"]
    if items.all fun it => base.isPrefixOf it.1 then
      (true, writeFile fs1 (pkgPathOf skills_dir)
        (FData.tar (items.map fun it => (it.1.drop base.length, it.2))))
    else (false, fs1)

/-- Embedding of `update_project_package(project_dir, skills_dir)`
(lines 115-130).  `ok` is the oracle for `shutil.copy2` raising
(caught, lines 128-130); copying fails likewise when the source package
path exists but is not a regular file. -/
def update_project_package (project_dir skills_dir : FPath) (fs : FS)
    (ok : Bool) : Bool × FS :=
  if !(fsExists fs (pkgPathOf skills_dir)) then (false, fs)
  else if !ok then (false, fs)
  else
    match fileAt fs (pkgPathOf skills_dir) with
    | some d => (true, writeFile fs (project_dir ++ ["github-pages-deploy.skill"]) d)
    | none => (false, fs)

/-- The separator the summary prints: the source's `"=" * 60`. -/
def sepLine : String := String.mk (List.replicate 60 '=')

/-- Embedding of `show_summary(source_skill, dest_skill, success,
packaged, updated_project)` (lines 133-145), as the list of printed
lines. -/
def show_summary (source dest : String) (success packaged updated_project : Bool) :
    List String :=
  ["", sepLine,
   "SYNC SUMMARY",
   sepLine,
   "Source:      " ++ source,
   "Destination: " ++ dest]
  ++ ["Status:      " ++ (if success then "SUCCESS" else "FAILED")]
  ++ (if packaged then ["Packaged:    YES"] else [])
  ++ (if updated_project then ["Project:     UPDATED"] else [])
  ++ [sepLine]

/-- Rendering of a (model) absolute path the way the source prints a
`pathlib.Path`. -/
def pathStr (p : FPath) : String := "/" ++ String.intercalate "/" p

/-- Model of Python `str.strip()`: drop whitespace from both ends. -/
def pyStrip (s : String) : String :=
  ⟨((s.data.dropWhile Char.isWhitespace).reverse.dropWhile
    Char.isWhitespace).reverse⟩

/-- Model of Python `str.lower()`: lower-case every character. -/
def pyLower (s : String) : String := ⟨s.data.map Char.toLower⟩

/-- Line 171: `input("Continue? (y/n): ").strip().lower()` checked
against `['y', 'yes']`. -/
def affirmativeResponse (response : String) : Bool :=
  pyLower (pyStrip response) == "y" || pyLower (pyStrip response) == "yes"

/-- The oracles for the environment-raised exceptions of one run of
`main()`: whether the backup copy, the sync copy, the packaging I/O and
the project-package copy succeed. -/
structure Oracles where
  backupOk : Bool
  syncOk : Bool
  packageOk : Bool
  updateOk : Bool

/-- The observable outcome of one run of `main()` (lines 148-208): the
exit code, the final file system, the printed summary block (absent
when the run exits before reaching it), and which pipeline steps were
entered. -/
structure MainOut where
  exitCode : Nat
  fs : FS
  summary : Option (List String)
  backupAttempted : Bool
  syncAttempted : Bool
  updateAttempted : Bool

/-- Embedding of `main()` (lines 148-208): resolve the paths, check the
source exists (exit 1 otherwise), read the confirmation (exit 0 unless
affirmative), then run backup, sync (exit 1 on failure), package, and —
only if packaging succeeded — the project-package update, before
printing the summary. -/
def mainRun (home project_dir : FPath) (fs : FS) (response : String)
    (timestamp : String) (oc : Oracles) : MainOut :=
  let paths := get_paths project_dir home
  let source_skill := paths.2.1
  let dest_skill := paths.2.2.1
  let skills_dir := paths.2.2.2
  if !(fsExists fs source_skill) then
    ⟨1, fs, none, false, false, false⟩
  else if !(affirmativeResponse response) then
    ⟨0, fs, none, false, false, false⟩
  else
    let b := backup_skill dest_skill timestamp fs oc.backupOk
    let s := sync_skill_files source_skill dest_skill b.2 oc.syncOk
    if !s.1 then ⟨1, s.2, none, true, true, false⟩
    else
      let p := package_skill skills_dir dest_skill s.2 oc.packageOk
      if p.1 then
        let u := update_project_package paths.1 skills_dir p.2 oc.updateOk
        ⟨0, u.2, some (show_summary (pathStr source_skill) (pathStr dest_skill)
          s.1 p.1 u.1), true, true, true⟩
      else
        ⟨0, p.2, some (show_summary (pathStr source_skill) (pathStr dest_skill)
          s.1 p.1 false), true, true, false⟩

/-- A sample project file system: the project holds the skill folder
with one file. -/
def fsSample : FS :=
  [(["proj"], Entry.dir),
   (["proj", "github-pages-deploy-skill"], Entry.dir),
   (["proj", "github-pages-deploy-skill", "SKILL.md"],
     Entry.file (FData.text "skill text"))]

/-!
Helper lemmas about the file-system model.
-/

theorem fsExists_append (l1 l2 : FS) (p : FPath) :
    fsExists (l1 ++ l2) p = (fsExists l1 p || fsExists l2 p) := by
  induction l1 with
  | nil => simp [fsExists]
  | cons e l ih => cases e with
    | mk q en => simp [fsExists, ih, Bool.or_assoc]

theorem fsExists_of_mem {l : FS} {q : FPath} {e : Entry} (h : (q, e) ∈ l) :
    fsExists l q = true := by
  induction l with
  | nil => cases h
  | cons x l ih =>
    rcases List.mem_cons.mp h with h1 | h1
    · cases x with
      | mk q1 e1 =>
        cases h1
        simp [fsExists]
    · cases x with
      | mk q1 e1 => simp [fsExists, ih h1]

theorem fileAt_append_left {l1 : FS} (l2 : FS) {p : FPath}
    (h : fsExists l1 p = true) : fileAt (l1 ++ l2) p = fileAt l1 p := by
  induction l1 with
  | nil => simp [fsExists] at h
  | cons e l ih =>
    cases e with
    | mk q en =>
      by_cases hq : (q == p) = true
      · simp [fileAt, hq]
      · have hq' : (q == p) = false := by
          cases hb : (q == p) <;> simp [hb] at hq ⊢
        have hl : fsExists l p = true := by
          simpa [fsExists, hq'] using h
        simp [fileAt, hq', ih hl]

theorem fileAt_append_right {l1 : FS} (l2 : FS) {p : FPath}
    (h : fsExists l1 p = false) : fileAt (l1 ++ l2) p = fileAt l2 p := by
  induction l1 with
  | nil => simp [fileAt]
  | cons e l ih =>
    cases e with
    | mk q en =>
      have hq : (q == p) = false := by
        by_contra hc
        have : (q == p) = true := by
          cases hb : (q == p) <;> simp [hb] at hc ⊢
        simp [fsExists, this] at h
      have hl : fsExists l p = false := by
        simpa [fsExists, hq] using h
      simp [fileAt, hq, ih hl]

theorem fileAt_eq_none_of_not_exists {l : FS} {p : FPath}
    (h : fsExists l p = false) : fileAt l p = none := by
  induction l with
  | nil => simp [fileAt]
  | cons e l ih =>
    cases e with
    | mk q en =>
      have hq : (q == p) = false := by
        by_contra hc
        have : (q == p) = true := by
          cases hb : (q == p) <;> simp [hb] at hc ⊢
        simp [fsExists, this] at h
      have hl : fsExists l p = false := by
        simpa [fsExists, hq] using h
      simp [fileAt, hq, ih hl]

theorem fileAt_of_all_dir {l : FS} (p : FPath)
    (h : ∀ e ∈ l, e.2 = Entry.dir) : fileAt l p = none := by
  induction l with
  | nil => simp [fileAt]
  | cons e l ih =>
    cases e with
    | mk q en =>
      have he : en = Entry.dir := h (q, en) (List.mem_cons_self _ _)
      subst he
      by_cases hq : (q == p) = true
      · simp [fileAt, hq, entryData]
      · have hq' : (q == p) = false := by
          cases hb : (q == p) <;> simp [hb] at hq ⊢
        simp [fileAt, hq', ih fun e he => h e (List.mem_cons_of_mem _ he)]

theorem mkdirParents_new_all_dir (fs : FS) (p : FPath) :
    ∀ e ∈ (prefixes p).filterMap
      (fun q => if fsExists fs q then none else some (q, Entry.dir)),
      e.2 = Entry.dir := by
  intro e he
  rcases List.mem_filterMap.mp he with ⟨q, _, hf⟩
  by_cases hq : fsExists fs q = true
  · simp [hq] at hf
  · have hq' : fsExists fs q = false := by
      cases hb : fsExists fs q <;> simp [hb] at hq ⊢
    simp [hq'] at hf
    rw [← hf]

/-- Creating directories never changes the contents of any regular
file. -/
theorem fileAt_mkdirParents (fs : FS) (p q : FPath) :
    fileAt (mkdirParents fs p) q = fileAt fs q := by
  unfold mkdirParents
  by_cases h : fsExists fs q = true
  · exact fileAt_append_left _ h
  · have h' : fsExists fs q = false := by
      cases hb : fsExists fs q <;> simp [hb] at h ⊢
    rw [fileAt_append_right _ h', fileAt_of_all_dir _ (mkdirParents_new_all_dir fs p),
      fileAt_eq_none_of_not_exists h']

theorem mem_prefixes_self (p : FPath) : p ∈ prefixes p := by
  unfold prefixes
  refine List.mem_map.mpr ⟨p.length, List.mem_range.mpr (Nat.lt_succ_self _), ?_⟩
  simp

/-- After `mkdir(parents=True, exist_ok=True)` the directory exists. -/
theorem fsExists_mkdirParents_self (fs : FS) (p : FPath) :
    fsExists (mkdirParents fs p) p = true := by
  unfold mkdirParents
  rw [fsExists_append]
  by_cases h : fsExists fs p = true
  · simp [h]
  · have h' : fsExists fs p = false := by
      cases hb : fsExists fs p <;> simp [hb] at h ⊢
    have hmem : (p, Entry.dir) ∈ (prefixes p).filterMap
        (fun q => if fsExists fs q then none else some (q, Entry.dir)) :=
      List.mem_filterMap.mpr ⟨p, mem_prefixes_self p, by simp [h']⟩
    simp [fsExists_of_mem hmem]

theorem fsExists_copytree_of {fs : FS} {p : FPath} (src dst : FPath)
    (h : fsExists fs p = true) : fsExists (copytree fs src dst) p = true := by
  unfold copytree
  rw [fsExists_append, h, Bool.true_or]

theorem fsExists_filter_ne (fs : FS) (p : FPath) :
    fsExists (fs.filter fun e => !(e.1 == p)) p = false := by
  induction fs with
  | nil => simp [fsExists]
  | cons e l ih =>
    cases e with
    | mk q en =>
      by_cases hq : (q == p) = true
      · simpa [List.filter, hq] using ih
      · have hq' : (q == p) = false := by
          cases hb : (q == p) <;> simp [hb] at hq ⊢
        simpa [List.filter, hq', fsExists] using ih

/-- Looking up the file just written yields what was written. -/
theorem fileAt_writeFile_self (fs : FS) (p : FPath) (d : FData) :
    fileAt (writeFile fs p d) p = some d := by
  unfold writeFile
  rw [fileAt_append_right _ (fsExists_filter_ne fs p)]
  simp [fileAt, entryData]

/-- Membership in `filesUnder`: exactly the regular-file entries
strictly below `p`. -/
theorem mem_filesUnder {fs : FS} {p q : FPath} {d : FData} :
    (q, d) ∈ filesUnder fs p ↔
      ((q, Entry.file d) ∈ fs ∧ p.isPrefixOf q = true ∧ q ≠ p) := by
  unfold filesUnder
  rw [List.mem_filterMap]
  constructor
  · rintro ⟨⟨q1, e1⟩, hmem, hf⟩
    by_cases hc : (p.isPrefixOf q1 && !(q1 == p)) = true
    · rw [if_pos hc] at hf
      cases e1 with
      | dir => simp [entryData] at hf
      | file d1 =>
        simp only [entryData, Option.map_some'] at hf
        have hq : (q1, d1) = (q, d) := Option.some.inj hf
        have hq1 : q1 = q := congrArg Prod.fst hq
        have hd1 : d1 = d := congrArg Prod.snd hq
        subst hq1
        subst hd1
        simp only [Bool.and_eq_true] at hc
        rcases hc with ⟨hpre, hne⟩
        refine ⟨hmem, hpre, ?_⟩
        intro hqp
        subst hqp
        simp at hne
    · rw [if_neg hc] at hf
      cases hf
  · rintro ⟨hmem, hpre, hne⟩
    refine ⟨(q, Entry.file d), hmem, ?_⟩
    have hb : (q == p) = false := by
      cases hb1 : (q == p)
      · rfl
      · exact absurd (by simpa using hb1) hne
    simp [hpre, hb, entryData]

/-!
Claim theorems about `create_workflow.py`.
-/

/-- Claim C9: the text returned by `get_workflow_template` is
independent of its third argument `build_dir` — for any two values of
`build_dir` (including none at all) the result is identical; the
parameter is accepted but never read. -/
theorem template_ignores_build_dir (project_type repo_name : String)
    (b1 b2 : Option String) :
    get_workflow_template project_type repo_name b1 =
      get_workflow_template project_type repo_name b2 := rfl

set_option maxRecDepth 100000 in
/-- Claim C5: for every repository name `r`, the template returned for
`react-vite` and for `cra` contains the substituted fragment exactly
`/r/`, and for each of `vanilla`, `vue` and `nextjs` the returned text
is the same for every choice of repository name. -/
theorem template_repo_name_dependence (r r1 r2 : String) (b : Option String) :
    (∃ a z, get_workflow_template "react-vite" r b =
        Except.ok (a ++ ("/" ++ r ++ "/") ++ z)) ∧
    (∃ a z, get_workflow_template "cra" r b =
        Except.ok (a ++ ("/" ++ r ++ "/") ++ z)) ∧
    get_workflow_template "vanilla" r1 b = get_workflow_template "vanilla" r2 b ∧
    get_workflow_template "vue" r1 b = get_workflow_template "vue" r2 b ∧
    get_workflow_template "nextjs" r1 b = get_workflow_template "nextjs" r2 b := by
  refine ⟨⟨"name: Deploy to GitHub Pages\n\non:\n  push:\n    branches: [ main ]\n\npermissions:\n  contents: write\n  pages: write\n  id-token: write\n\njobs:\n  build-and-deploy:\n    runs-on: ubuntu-latest\n    steps:\n      - uses: actions/checkout@v4\n\n      - name: Setup Node.js\n        uses: actions/setup-node@v4\n        with:\n          node-version: \x2720\x27\n          cache: \x27npm\x27\n\n      - name: Install dependencies\n        run: npm ci\n\n      - name: Build\n        run: npm run build\n        env:\n          VITE_BASE_URL: ",
      "\n\n      - name: Setup Pages\n        uses: actions/configure-pages@v4\n\n      - name: Upload artifact\n        uses: actions/upload-pages-artifact@v3\n        with:\n          path: dist\n\n      - name: Deploy to GitHub Pages\n        id: deployment\n        uses: actions/deploy-pages@v4\n", rfl⟩,
    ⟨"name: Deploy to GitHub Pages\n\non:\n  push:\n    branches: [ main ]\n\npermissions:\n  contents: write\n  pages: write\n  id-token: write\n\njobs:\n  build-and-deploy:\n    runs-on: ubuntu-latest\n    steps:\n      - uses: actions/checkout@v4\n\n      - name: Setup Node.js\n        uses: actions/setup-node@v4\n        with:\n          node-version: \x2720\x27\n          cache: \x27npm\x27\n\n      - name: Install dependencies\n        run: npm ci\n\n      - name: Build\n        run: npm run build\n        env:\n          PUBLIC_URL: ",
      "\n\n      - name: Setup Pages\n        uses: actions/configure-pages@v4\n\n      - name: Upload artifact\n        uses: actions/upload-pages-artifact@v3\n        with:\n          path: build\n\n      - name: Deploy to GitHub Pages\n        id: deployment\n        uses: actions/deploy-pages@v4\n", rfl⟩,
    rfl, rfl, rfl⟩

/-- An unrecognized tag makes `get_workflow_template` return the
`ValueError` naming the tag (line 223). -/
theorem get_workflow_template_unknown {t : String} (r : String)
    (b : Option String)
    (h1 : t ≠ "vanilla") (h2 : t ≠ "react-vite") (h3 : t ≠ "cra")
    (h4 : t ≠ "vue") (h5 : t ≠ "nextjs") :
    get_workflow_template t r b =
      Except.error ("Unknown project type: " ++ t) := by
  have e1 : (t == "vanilla") = false := beq_eq_false_iff_ne.mpr h1
  have e2 : (t == "react-vite") = false := beq_eq_false_iff_ne.mpr h2
  have e3 : (t == "cra") = false := beq_eq_false_iff_ne.mpr h3
  have e4 : (t == "vue") = false := beq_eq_false_iff_ne.mpr h4
  have e5 : (t == "nextjs") = false := beq_eq_false_iff_ne.mpr h5
  unfold get_workflow_template
  rw [if_neg (by simp [e1]), if_neg (by simp [e2]), if_neg (by simp [e3]),
    if_neg (by simp [e4]), if_neg (by simp [e5])]

/-- Claim C4: for every project-type tag outside the five recognized
ones and every repository name and output path, `create_workflow` fails
with an error whose message names the offending tag, and no file
anywhere (in particular not the output file) is written. -/
theorem unknown_project_type_fails_without_write (t r : String)
    (op : Option FPath) (cwd : FPath) (fs : FS)
    (h1 : t ≠ "vanilla") (h2 : t ≠ "react-vite") (h3 : t ≠ "cra")
    (h4 : t ≠ "vue") (h5 : t ≠ "nextjs") :
    (create_workflow t r op cwd fs).1 =
      Except.error ("Unknown project type: " ++ t) ∧
    ∀ q : FPath, fileAt (create_workflow t r op cwd fs).2 q = fileAt fs q := by
  have hg := get_workflow_template_unknown (t := t) r none h1 h2 h3 h4 h5
  refine ⟨?_, ?_⟩
  · simp only [create_workflow, hg]
  · intro q
    simp only [create_workflow, hg]
    exact fileAt_mkdirParents fs _ q

/-- Witness for C4 at the concrete tag `angular`. -/
theorem unknown_project_type_fails_without_write_witness :
    (create_workflow "angular" "my-repo" none ["work"] fsSample).1 =
      Except.error ("Unknown project type: " ++ "angular") ∧
    fileAt (create_workflow "angular" "my-repo" none ["work"] fsSample).2
        (resolvedOut none ["work"]) =
      fileAt fsSample (resolvedOut none ["work"]) :=
  ⟨(unknown_project_type_fails_without_write "angular" "my-repo" none ["work"]
      fsSample (by decide) (by decide) (by decide) (by decide) (by decide)).1,
   (unknown_project_type_fails_without_write "angular" "my-repo" none ["work"]
      fsSample (by decide) (by decide) (by decide) (by decide) (by decide)).2
      (resolvedOut none ["work"])⟩

/-- Claim C10: `create_workflow` creates the output path's parent
directories before the tag is validated, so for every unrecognized tag
the call still leaves the file system with those directories created
(and nothing else changed) even though it reports the error. -/
theorem unknown_type_creates_parent_dirs (t r : String)
    (op : Option FPath) (cwd : FPath) (fs : FS)
    (h1 : t ≠ "vanilla") (h2 : t ≠ "react-vite") (h3 : t ≠ "cra")
    (h4 : t ≠ "vue") (h5 : t ≠ "nextjs") :
    (create_workflow t r op cwd fs).2 =
      mkdirParents fs (parent (resolvedOut op cwd)) ∧
    fsExists (create_workflow t r op cwd fs).2
      (parent (resolvedOut op cwd)) = true ∧
    (create_workflow t r op cwd fs).1 =
      Except.error ("Unknown project type: " ++ t) := by
  have hg := get_workflow_template_unknown (t := t) r none h1 h2 h3 h4 h5
  refine ⟨?_, ?_, ?_⟩
  · simp only [create_workflow, hg]
  · simp only [create_workflow, hg]
    exact fsExists_mkdirParents_self fs _
  · simp only [create_workflow, hg]

/-- Witness for C10 at the concrete tag `angular` with the default
output path. -/
theorem unknown_type_creates_parent_dirs_witness :
    (create_workflow "angular" "my-repo" none ["work"] []).2 =
      mkdirParents [] (parent (resolvedOut none ["work"])) ∧
    fsExists (create_workflow "angular" "my-repo" none ["work"] []).2
      (parent (resolvedOut none ["work"])) = true :=
  ⟨(unknown_type_creates_parent_dirs "angular" "my-repo" none ["work"] []
      (by decide) (by decide) (by decide) (by decide) (by decide)).1,
   (unknown_type_creates_parent_dirs "angular" "my-repo" none ["work"] []
      (by decide) (by decide) (by decide) (by decide) (by decide)).2.1⟩

/-!
Claim theorems about `sync_skill.py`.
-/

/-- Claim C1: for every destination path, if the source skill directory
does not exist then the sync step returns failure and performs no
mutation at all — in particular the destination, if present, is neither
removed nor modified (the existence check precedes the
remove-then-copy). -/
theorem sync_missing_source_preserves_destination
    (source_skill dest_skill : FPath) (fs : FS) (copyOk : Bool)
    (h : fsExists fs source_skill = false) :
    sync_skill_files source_skill dest_skill fs copyOk = (false, fs) := by
  simp [sync_skill_files, h]

/-- Witness for C1: with the destination present and the source absent,
the sync step fails and returns the file system unchanged. -/
theorem sync_missing_source_preserves_destination_witness :
    sync_skill_files (sourcePathOf ["proj"]) (destPathOf ["h"])
        [(destPathOf ["h"], Entry.dir)] true =
      (false, [(destPathOf ["h"], Entry.dir)]) :=
  sync_missing_source_preserves_destination _ _ _ _ (by decide)

/-- The destination directory fixed inside `package_skill` (line 100):
the skills directory extended by the literal `github-pages-deploy`. -/
def destOf (skills_dir : FPath) : FPath :=
  skills_dir ++ ["github-pages-deploy"]

/-- The member list of the archive the package step produces: the
regular files below the destination, renamed to destination-relative
paths. -/
def packagedEntries (skills_dir : FPath) (fs : FS) : List (FPath × FData) :=
  (filesUnder (removeOldPackage skills_dir fs) (destOf skills_dir)).map
    fun it => (it.1.drop (destOf skills_dir).length, it.2)

theorem filesUnder_below {fs : FS} {p : FPath} :
    ∀ it ∈ filesUnder fs p, p.isPrefixOf it.1 = true := by
  rintro ⟨q, d⟩ hmem
  exact (mem_filesUnder.mp hmem).2.1

/-- Evaluation of `package_skill` at the destination `get_paths` fixes:
remove the old archive, then write the new archive holding
`packagedEntries`. -/
theorem package_skill_eq (skills_dir : FPath) (fs : FS) :
    package_skill skills_dir (destOf skills_dir) fs true =
      (true, writeFile (removeOldPackage skills_dir fs) (pkgPathOf skills_dir)
        (FData.tar (packagedEntries skills_dir fs))) := by
  have hbase : parent (destOf skills_dir) ++ ["github-pages-deploy"] =
      destOf skills_dir := by
    simp [parent, destOf]
  have hall : (filesUnder (removeOldPackage skills_dir fs)
      (destOf skills_dir)).all
      (fun it => (destOf skills_dir).isPrefixOf it.1) = true :=
    List.all_eq_true.mpr (filesUnder_below)
  simp only [package_skill, packagedEntries, Bool.not_true, hbase, hall]
  simp

theorem mem_packagedEntries {skills_dir : FPath} {fs : FS} {q : FPath}
    {d : FData} :
    (q, d) ∈ packagedEntries skills_dir fs ↔
      ((destOf skills_dir ++ q, Entry.file d) ∈ removeOldPackage skills_dir fs ∧
        q ≠ []) := by
  unfold packagedEntries
  rw [List.mem_map]
  constructor
  · rintro ⟨⟨p1, d1⟩, hmem, heq⟩
    rcases mem_filesUnder.mp hmem with ⟨hfs, hpre, hne⟩
    rcases List.isPrefixOf_iff_prefix.mp hpre with ⟨t, ht⟩
    have hqq : p1.drop (destOf skills_dir).length = q := congrArg Prod.fst heq
    have hdd : d1 = d := congrArg Prod.snd heq
    subst hdd
    have hqt : q = t := by
      rw [← hqq, ← ht]
      simp
    subst hqt
    have hp1 : destOf skills_dir ++ q = p1 := ht
    constructor
    · rw [hp1]
      exact hfs
    · intro hq0
      apply hne
      rw [← hp1, hq0, List.append_nil]

  · rintro ⟨hmem, hne⟩
    refine ⟨(destOf skills_dir ++ q, d), mem_filesUnder.mpr ⟨hmem, ?_, ?_⟩, ?_⟩
    · exact List.isPrefixOf_iff_prefix.mpr ⟨q, rfl⟩
    · intro hc
      apply hne
      have hc2 : destOf skills_dir ++ q = destOf skills_dir ++ [] := by
        simpa using hc
      exact List.append_cancel_left hc2
    · simp

/-- Claim C3: with the destination directory fixed by `get_paths`
(`skills_dir/github-pages-deploy`), the package step first removes any
pre-existing archive at `skills_dir/github-pages-deploy.skill` and then
writes there an uncompressed tar whose members are exactly the regular
files below the destination (directories are never members), each named
by its path relative to the destination directory. -/
theorem package_removes_old_and_archives_files (skills_dir : FPath) (fs : FS) :
    (package_skill skills_dir (destOf skills_dir) fs true).1 = true ∧
    fileAt (package_skill skills_dir (destOf skills_dir) fs true).2
        (pkgPathOf skills_dir) =
      some (FData.tar (packagedEntries skills_dir fs)) ∧
    (∀ q d, (q, d) ∈ packagedEntries skills_dir fs →
      (destOf skills_dir ++ q, Entry.file d) ∈ removeOldPackage skills_dir fs ∧
        q ≠ []) ∧
    (∀ p d, (p, Entry.file d) ∈ removeOldPackage skills_dir fs →
      (destOf skills_dir).isPrefixOf p = true → p ≠ destOf skills_dir →
      (p.drop (destOf skills_dir).length, d) ∈ packagedEntries skills_dir fs) := by
  refine ⟨?_, ?_, ?_, ?_⟩
  · rw [package_skill_eq]
  · rw [package_skill_eq]
    exact fileAt_writeFile_self _ _ _
  · intro q d h
    exact mem_packagedEntries.mp h
  · intro p d hmem hpre hne
    rcases List.isPrefixOf_iff_prefix.mp hpre with ⟨t, ht⟩
    have hdrop : p.drop (destOf skills_dir).length = t := by
      rw [← ht]
      simp
    rw [hdrop]
    refine mem_packagedEntries.mpr ⟨?_, ?_⟩
    · rw [ht]
      exact hmem
    · intro ht0
      apply hne
      rw [← ht, ht0, List.append_nil]

/-- A sample skills directory holding the installed skill (one file)
and a stale archive from a previous run. -/
def fsSkills : FS :=
  [(["skills"], Entry.dir),
   (["skills", "github-pages-deploy"], Entry.dir),
   (["skills", "github-pages-deploy", "SKILL.md"],
     Entry.file (FData.text "hello")),
   (["skills", "github-pages-deploy.skill"],
     Entry.file (FData.text "old archive"))]

/-- Witness for C3 on `fsSkills`: packaging succeeds, the stale archive
is replaced by the new one, and the single member is the regular file
named relative to the destination. -/
theorem package_removes_old_and_archives_files_witness :
    (package_skill ["skills"] (destOf ["skills"]) fsSkills true).1 = true ∧
    fileAt (package_skill ["skills"] (destOf ["skills"]) fsSkills true).2
        (pkgPathOf ["skills"]) =
      some (FData.tar (packagedEntries ["skills"] fsSkills)) ∧
    ((destOf ["skills"] ++ ["SKILL.md"], Entry.file (FData.text "hello")) ∈
        removeOldPackage ["skills"] fsSkills ∧ (["SKILL.md"] : FPath) ≠ []) :=
  ⟨(package_removes_old_and_archives_files ["skills"] fsSkills).1,
   (package_removes_old_and_archives_files ["skills"] fsSkills).2.1,
   (package_removes_old_and_archives_files ["skills"] fsSkills).2.2.1
     ["SKILL.md"] (FData.text "hello") (List.Mem.head _)⟩

/-- Counterexample to Claim C2 as stated: on `fsSkills` the produced
archive's single member is named `SKILL.md`, which does not begin with
the destination directory's own name `github-pages-deploy` — member
names are not relative to the destination's parent. -/
theorem package_arcname_not_parent_relative_cex :
    fileAt (package_skill ["skills"] (destOf ["skills"]) fsSkills true).2
        (pkgPathOf ["skills"]) =
      some (FData.tar [(["SKILL.md"], FData.text "hello")]) ∧
    (["github-pages-deploy"] : FPath).isPrefixOf ["SKILL.md"] = false :=
  ⟨rfl, by decide⟩

/-- Claim C2 (amended): the package step writes every regular file
below the destination into the archive with a member name relative to
the destination directory itself (not to its parent): each member
`(q, d)` corresponds to the regular file at `dest ++ q`. -/
theorem package_arcname_dest_relative (skills_dir : FPath) (fs : FS) :
    fileAt (package_skill skills_dir (destOf skills_dir) fs true).2
        (pkgPathOf skills_dir) =
      some (FData.tar (packagedEntries skills_dir fs)) ∧
    ∀ q d, (q, d) ∈ packagedEntries skills_dir fs →
      (destOf skills_dir ++ q, Entry.file d) ∈ removeOldPackage skills_dir fs ∧
        q ≠ [] := by
  refine ⟨?_, ?_⟩
  · rw [package_skill_eq]
    exact fileAt_writeFile_self _ _ _
  · intro q d h
    exact mem_packagedEntries.mp h

/-- Witness for the amended C2 on `fsSkills`. -/
theorem package_arcname_dest_relative_witness :
    ((destOf ["skills"] ++ ["SKILL.md"], Entry.file (FData.text "hello")) ∈
        removeOldPackage ["skills"] fsSkills ∧ (["SKILL.md"] : FPath) ≠ []) :=
  (package_arcname_dest_relative ["skills"] fsSkills).2
    ["SKILL.md"] (FData.text "hello") (List.Mem.head _)

theorem fsExists_backup_preserves {dest : FPath} {ts : String} {fs : FS}
    {ok : Bool} {p : FPath} (h : fsExists fs p = true) :
    fsExists (backup_skill dest ts fs ok).2 p = true := by
  unfold backup_skill
  by_cases hd : fsExists fs dest = true
  · cases ok with
    | true => simpa [hd] using fsExists_copytree_of _ _ h
    | false => simpa [hd] using h
  · have hd' : fsExists fs dest = false := by
      cases hb : fsExists fs dest <;> simp [hb] at hd ⊢
    simpa [hd'] using h

theorem sync_skill_files_fst {source dest : FPath} {fs : FS}
    (h : fsExists fs source = true) :
    (sync_skill_files source dest fs true).1 = true := by
  unfold sync_skill_files
  simp [h]

theorem package_skill_io_failure (skills_dir dest_skill : FPath) (fs : FS) :
    package_skill skills_dir dest_skill fs false = (false, fs) := rfl

/-- Claim C6: the backup step returns no path and leaves the file
system unchanged when the destination does not exist; when it exists
the backup is a recursive copy to the sibling path suffixed with
`_backup_<timestamp>` and that path is returned; a copy failure is
caught and turned into the no-backup result; and the pipeline always
continues to the sync step after the confirmation, whatever the backup
outcome. -/
theorem backup_step_contract :
    (∀ (dest : FPath) (ts : String) (fs : FS) (ok : Bool),
      fsExists fs dest = false → backup_skill dest ts fs ok = (none, fs)) ∧
    (∀ (dest : FPath) (ts : String) (fs : FS),
      fsExists fs dest = true →
      backup_skill dest ts fs true =
        (some (parent dest ++ [lastName dest ++ "_backup_" ++ ts]),
         copytree fs dest (parent dest ++ [lastName dest ++ "_backup_" ++ ts]))) ∧
    (∀ (dest : FPath) (ts : String) (fs : FS),
      fsExists fs dest = true → backup_skill dest ts fs false = (none, fs)) ∧
    (∀ (home pdir : FPath) (fs : FS) (r ts : String) (oc : Oracles),
      affirmativeResponse r = true →
      fsExists fs (sourcePathOf pdir) = true →
      (mainRun home pdir fs r ts oc).syncAttempted = true) := by
  refine ⟨?_, ?_, ?_, ?_⟩
  · intro dest ts fs ok h
    simp [backup_skill, h]
  · intro dest ts fs h
    simp [backup_skill, h]
  · intro dest ts fs h
    simp [backup_skill, h]
  · intro home pdir fs r ts oc haff hsrc
    unfold mainRun
    simp only [get_paths, hsrc, haff, Bool.not_true, Bool.false_eq_true,
      if_false]
    split
    · rfl
    · split <;> rfl

/-- Witness for C6: the four parts at concrete inputs — no destination,
a present destination with a successful copy, a present destination
with a failing copy, and a full run whose backup copy fails yet whose
sync step still runs. -/
theorem backup_step_contract_witness :
    backup_skill (destPathOf ["h"]) "20250101_000000" [] true = (none, []) ∧
    backup_skill ["skills", "github-pages-deploy"] "20250101_000000"
        [(["skills", "github-pages-deploy"], Entry.dir)] true =
      (some (parent ["skills", "github-pages-deploy"] ++
          [lastName ["skills", "github-pages-deploy"] ++ "_backup_" ++
            "20250101_000000"]),
       copytree [(["skills", "github-pages-deploy"], Entry.dir)]
         ["skills", "github-pages-deploy"]
         (parent ["skills", "github-pages-deploy"] ++
          [lastName ["skills", "github-pages-deploy"] ++ "_backup_" ++
            "20250101_000000"])) ∧
    backup_skill ["skills", "github-pages-deploy"] "20250101_000000"
        [(["skills", "github-pages-deploy"], Entry.dir)] false =
      (none, [(["skills", "github-pages-deploy"], Entry.dir)]) ∧
    (mainRun ["h"] ["proj"] fsSample "y" "20250101_000000"
        ⟨false, true, true, true⟩).syncAttempted = true :=
  ⟨backup_step_contract.1 (destPathOf ["h"]) "20250101_000000" [] true
     (by decide),
   backup_step_contract.2.1 ["skills", "github-pages-deploy"] "20250101_000000"
     [(["skills", "github-pages-deploy"], Entry.dir)] (by decide),
   backup_step_contract.2.2.1 ["skills", "github-pages-deploy"]
     "20250101_000000" [(["skills", "github-pages-deploy"], Entry.dir)]
     (by decide),
   backup_step_contract.2.2.2 ["h"] ["proj"] fsSample "y" "20250101_000000"
     ⟨false, true, true, true⟩ (by decide) (by decide)⟩

/-- Counterexample to Claim C7 as stated: the confirmation input `Y` is
a string other than `y` and other than `yes`, the destination does not
exist beforehand, and yet the run proceeds and creates it (the check
normalizes the input with `strip().lower()` first). -/
theorem confirm_check_normalizes_input_cex :
    affirmativeResponse "Y" = true ∧ "Y" ≠ "y" ∧ "Y" ≠ "yes" ∧
    fsExists fsSample (destPathOf ["h"]) = false ∧
    fsExists (mainRun ["h"] ["proj"] fsSample "Y" "20250101_000000"
        ⟨true, true, true, true⟩).fs (destPathOf ["h"]) = true ∧
    (mainRun ["h"] ["proj"] fsSample "Y" "20250101_000000"
        ⟨true, true, true, true⟩).syncAttempted = true := by
  decide

/-- Claim C7 (amended): for every confirmation input whose
whitespace-stripped, lower-cased form is neither `y` nor `yes`, the
tool exits with code 0 and performs no backup, removal, copy or
archive operation — the file system is returned unchanged and no
pipeline step is entered. -/
theorem nonaffirmative_normalized_input_no_mutation (home pdir : FPath)
    (fs : FS) (r ts : String) (oc : Oracles)
    (hr : affirmativeResponse r = false)
    (hsrc : fsExists fs (sourcePathOf pdir) = true) :
    mainRun home pdir fs r ts oc = ⟨0, fs, none, false, false, false⟩ := by
  unfold mainRun
  simp [get_paths, hsrc, hr]

/-- Witness for the amended C7 at the concrete input `n`. -/
theorem nonaffirmative_normalized_input_no_mutation_witness :
    mainRun ["h"] ["proj"] fsSample "n" "20250101_000000"
        ⟨true, true, true, true⟩ =
      ⟨0, fsSample, none, false, false, false⟩ :=
  nonaffirmative_normalized_input_no_mutation ["h"] ["proj"] fsSample "n"
    "20250101_000000" ⟨true, true, true, true⟩ (by decide) (by decide)

/-- Claim C8: in every run in which the sync step succeeds (the source
exists and its copy raises nothing) while packaging fails, the
project-package update step is never entered and the final summary is
rendered with the flags sync=true, package=false, project-update=false,
the exit code being 0. -/
theorem package_failure_skips_update_summary_flags (home pdir : FPath)
    (fs : FS) (r ts : String) (bOk uOk : Bool)
    (haff : affirmativeResponse r = true)
    (hsrc : fsExists fs (sourcePathOf pdir) = true) :
    (mainRun home pdir fs r ts ⟨bOk, true, false, uOk⟩).updateAttempted =
      false ∧
    (mainRun home pdir fs r ts ⟨bOk, true, false, uOk⟩).summary =
      some (show_summary (pathStr (sourcePathOf pdir))
        (pathStr (destPathOf home)) true false false) ∧
    (mainRun home pdir fs r ts ⟨bOk, true, false, uOk⟩).exitCode = 0 := by
  have hb : fsExists (backup_skill (destPathOf home) ts fs bOk).2
      (sourcePathOf pdir) = true := fsExists_backup_preserves hsrc
  have hs : (sync_skill_files (sourcePathOf pdir) (destPathOf home)
      (backup_skill (destPathOf home) ts fs bOk).2 true).1 = true :=
    sync_skill_files_fst hb
  unfold mainRun
  simp [get_paths, hsrc, haff, hs, package_skill_io_failure]

/-- Witness for C8 on a run over `fsSample`. -/
theorem package_failure_skips_update_summary_flags_witness :
    (mainRun ["h"] ["proj"] fsSample "yes" "20250101_000000"
        ⟨true, true, false, true⟩).updateAttempted = false ∧
    (mainRun ["h"] ["proj"] fsSample "yes" "20250101_000000"
        ⟨true, true, false, true⟩).summary =
      some (show_summary (pathStr (sourcePathOf ["proj"]))
        (pathStr (destPathOf ["h"])) true false false) ∧
    (mainRun ["h"] ["proj"] fsSample "yes" "20250101_000000"
        ⟨true, true, false, true⟩).exitCode = 0 :=
  package_failure_skips_update_summary_flags ["h"] ["proj"] fsSample "yes"
    "20250101_000000" true true (by decide) (by decide)

